import Mathlib

/-!
Verification development for the ThinkArena game engine
(`src/game-travel.ts` / `src/game-decoder.ts`).

The TypeScript source is shallowly embedded: every tool's `execute` method
becomes a pure Lean function from the game's full mutable state (the `state`
record plus the mutable part of the `database`) to a `ToolResult` carrying the
post-call state.  JavaScript strings are Lean `String`s; the handful of string
methods the source uses (`split(':')[0]`, `trim`, `includes`, `startsWith`,
`replace`) are re-implemented as structurally recursive functions on the
underlying character lists so that concrete runs reduce inside the kernel.
JavaScript numbers are embedded as `Int` (all arithmetic in the engine is
integer arithmetic within the exact range of doubles), except step counters,
which are only ever incremented and are embedded as `Nat`.
-/

namespace ThinkArena

/-! ## String helpers (models of the JavaScript string methods used) -/

/-- Characters of `l` strictly before the first occurrence of `c`
(the whole list if `c` does not occur): models `s.split(c)[0]`. -/
def takeUntil (c : Char) : List Char → List Char
  | [] => []
  | x :: xs => if x = c then [] else x :: takeUntil c xs

/-- Drop leading and trailing whitespace: models `String.prototype.trim`
(the source only ever trims ASCII-space-separated names). -/
def trimWS (l : List Char) : List Char :=
  ((l.dropWhile Char.isWhitespace).reverse.dropWhile Char.isWhitespace).reverse

/-- Substring containment on character lists: models `String.prototype.includes`. -/
def containsSub (l pat : List Char) : Bool :=
  pat.isPrefixOf l ||
    match l with
    | [] => false
    | _ :: xs => containsSub xs pat

/-- Replace the first occurrence of `pat` (assumed nonempty) by `repl`:
models `String.prototype.replace` with string arguments, which replaces
only the first occurrence. -/
def replaceFirst (pat repl : List Char) : List Char → List Char
  | [] => []
  | x :: xs =>
    if pat.isPrefixOf (x :: xs) then repl ++ (x :: xs).drop pat.length
    else x :: replaceFirst pat repl xs

/-- Models `s.includes(pat)`. -/
def strIncludes (s pat : String) : Bool :=
  containsSub s.data pat.data

/-- Models `s.startsWith(pat)`. -/
def strStartsWith (s pat : String) : Bool :=
  pat.data.isPrefixOf s.data

/-- Models `s.split(':')[0].trim()`, the short-name extraction applied to raw
signal strings such as `"basic_frequency: Alpha waves detected - ..."`. -/
def sName (s : String) : String :=
  ⟨trimWS (takeUntil ':' s.data)⟩

/-- Models `routeKey.replace(prefix, '').split('_')[0]`, the destination
extraction of `TravelTool.execute`. -/
def destOf (routeKey pre : String) : String :=
  ⟨takeUntil '_' (replaceFirst pre.data [] routeKey.data)⟩

/-! ## The tool-result contract

A tool call either succeeds or fails with a human-readable message
(`createSuccessResult` / `createErrorResult` in `tools.ts`); an exception
thrown inside `execute` is caught by the dispatch wrapper in `tools.ts` and
converted into an error result whose message starts with `"Tool error:"`.
Since the game object is mutated in place, both outcomes are paired here with
the state as it stands when the call returns. -/

inductive ToolResult (σ : Type) where
  | success (s : σ)
  | failure (msg : String) (s : σ)
deriving DecidableEq

/-- The game state after the call, whether it succeeded or failed. -/
def ToolResult.state {σ : Type} : ToolResult σ → σ
  | .success s => s
  | .failure _ s => s

def ToolResult.isSuccess {σ : Type} : ToolResult σ → Bool
  | .success _ => true
  | .failure _ _ => false

def ToolResult.errorMsg {σ : Type} : ToolResult σ → Option String
  | .success _ => none
  | .failure m _ => some m

/-! ## Alien Signal Decoder: data model -/

/-- The four risk levels of `AreaInfo.riskLevel`. -/
inductive Risk where
  | low
  | medium
  | high
  | very_high
deriving DecidableEq

/-- The `riskCosts` table of `MoveToAreaTool.execute`
(`{ low: 1, medium: 2, high: 3, very_high: 4 }`). -/
def riskCost : Risk → Int
  | .low => 1
  | .medium => 2
  | .high => 3
  | .very_high => 4

/-- `AreaInfo` (the free-text `description` field is reported in payloads only
and is omitted).  `artifacts` and `explored` are mutable. -/
structure AreaInfo where
  artifacts : List String
  signals : List String
  connections : List String
  riskLevel : Risk
  explored : Bool
deriving DecidableEq

/-- The mutable `database.area` record of `DecoderGame`, with one field per
area key. -/
structure AreaDB where
  landing_zone : AreaInfo
  volcanic_plains : AreaInfo
  crystal_forest : AreaInfo
  underground_caverns : AreaInfo
  hidden_lake : AreaInfo
  ancient_ruins : AreaInfo
  signal_source : AreaInfo
deriving DecidableEq

/-- Key lookup `database.area[name]` (`undefined` for unknown keys). -/
def AreaDB.get (db : AreaDB) : String → Option AreaInfo
  | "landing_zone" => some db.landing_zone
  | "volcanic_plains" => some db.volcanic_plains
  | "crystal_forest" => some db.crystal_forest
  | "underground_caverns" => some db.underground_caverns
  | "hidden_lake" => some db.hidden_lake
  | "ancient_ruins" => some db.ancient_ruins
  | "signal_source" => some db.signal_source
  | _ => none

/-- In-place update of the area object stored under a key (the source mutates
the object returned by `database.area[name]`). -/
def AreaDB.set (db : AreaDB) (name : String) (a : AreaInfo) : AreaDB :=
  match name with
  | "landing_zone" => { db with landing_zone := a }
  | "volcanic_plains" => { db with volcanic_plains := a }
  | "crystal_forest" => { db with crystal_forest := a }
  | "underground_caverns" => { db with underground_caverns := a }
  | "hidden_lake" => { db with hidden_lake := a }
  | "ancient_ruins" => { db with ancient_ruins := a }
  | "signal_source" => { db with signal_source := a }
  | _ => db

/-- `ArtifactInfo` of the decoder game's artifact database. -/
structure ArtifactInfo where
  value : Int
  type : String
  aidsIn : List String
  hint : String
deriving DecidableEq

/-- The immutable `database.artifact` record of `DecoderGame.init`
(hint texts abbreviated where irrelevant to behaviour are kept verbatim). -/
def artifactDB : String → Option ArtifactInfo
  | "signal_scanner" =>
    some ⟨20, "tool", ["decode_signal"], "Reduces decode energy cost from 2 to 1"⟩
  | "energy_crystal" =>
    some ⟨15, "resource", ["restore_energy"], "Use to restore 5 energy (one-time consumable)"⟩
  | "heat_resistant_probe" =>
    some ⟨30, "tool", ["explore_high_risk"], "Provides data about thermal patterns"⟩
  | "lava_sample" =>
    some ⟨25, "sample", ["analyze_clue"], "Contains thermal data useful for pattern analysis"⟩
  | "vibration_analyzer" =>
    some ⟨35, "tool", ["decode_signal"], "Reduces analyze cost to 0 in harmonic/crystal areas"⟩
  | "crystal_shard" =>
    some ⟨20, "sample", ["combine_artifacts"], "Crystalline sample with harmonic properties"⟩
  | "echo_locator" =>
    some ⟨40, "tool", ["navigate"], "Helps map underground connections"⟩
  | "fossil_remnant" =>
    some ⟨30, "sample", ["analyze_clue"], "Ancient biological data for pattern recognition"⟩
  | "water_sampler" =>
    some ⟨25, "tool", ["explore_medium_risk"], "Useful for analyzing aquatic signals"⟩
  | "aquatic_artifact" =>
    some ⟨35, "relic", ["combine_artifacts"], "Ancient tech from submerged ruins"⟩
  | "symbol_decoder" =>
    some ⟨45, "tool", ["decode_signal"], "Translates ancient cipher symbols"⟩
  | "engraved_tablet" =>
    some ⟨40, "relic", ["analyze_clue"], "Contains key cipher patterns"⟩
  | "master_artifact" =>
    some ⟨100, "core", ["final_decode"], "Central mystery artifact at signal source"⟩
  | _ => none

/-- A decode recipe of the immutable `database.signal` record. -/
structure Recipe where
  decoded : String
  value : Int
  bonus : String
deriving DecidableEq

/-- The immutable `database.signal` record of `DecoderGame.init`: the six
valid signal combinations, keyed by `name1+name2`. -/
def signalDB : String → Option Recipe
  | "basic_frequency+harmonic_sequence" =>
    some ⟨"Alpha-Gamma Harmonic Link", 100, "pattern_chain"⟩
  | "interference_pattern+echo_code" =>
    some ⟨"Beta-Delta Thermal Echo", 120, "risk_reward"⟩
  | "wave_ripple+symbol_cipher" =>
    some ⟨"Epsilon-Zeta Ancient Code", 150, "synthesis"⟩
  | "basic_frequency+interference_pattern" =>
    some ⟨"Alpha-Beta Baseline", 90, "foundation"⟩
  | "harmonic_sequence+wave_ripple" =>
    some ⟨"Gamma-Epsilon Resonance", 110, "resonance"⟩
  | "echo_code+symbol_cipher" =>
    some ⟨"Delta-Zeta Underground Cipher", 130, "ancient_link"⟩
  | _ => none

/-- The mutable `GameState` interface of the decoder game. -/
structure GameState where
  position : String
  energy : Int
  artifacts : List String
  decodedSignals : List String
  exploredAreas : List String
  gatheredClues : List String
  hypotheses : List String
  score : Int
  stepCount : Nat
  bonusesEarned : List String
  completed : Bool
deriving DecidableEq

/-- The full mutable state of a `DecoderGame` instance: the `state` record
plus the mutable area table of the database (`database.artifact` and
`database.signal` are never written and are embedded as constants). -/
structure DecoderGame where
  state : GameState
  area : AreaDB
deriving DecidableEq

/-- `DecoderGame.init`: the initial `state` record. -/
def initState : GameState where
  position := "landing_zone"
  energy := 30
  artifacts := []
  decodedSignals := []
  exploredAreas := ["landing_zone"]
  gatheredClues := []
  hypotheses := []
  score := 0
  stepCount := 0
  bonusesEarned := []
  completed := false

/-- The raw signal string of `landing_zone`. -/
def sigBasic : String :=
  "basic_frequency: Alpha waves detected - pattern repeats every 3 units"

/-- The raw signal string of `volcanic_plains`. -/
def sigInterference : String :=
  "interference_pattern: Beta spikes - correlates with heat sources, offset by 2"

/-- The raw signal string of `crystal_forest`. -/
def sigHarmonic : String :=
  "harmonic_sequence: Gamma harmonics - builds on alpha, multiplies by 1.5"

/-- The raw signal string of `underground_caverns`. -/
def sigEcho : String :=
  "echo_code: Delta echoes - reflects beta, inverts every 4th unit"

/-- The raw signal string of `hidden_lake`. -/
def sigWave : String :=
  "wave_ripple: Epsilon ripples - combines gamma and alpha, averages values"

/-- The raw signal string of `ancient_ruins`. -/
def sigSymbol : String :=
  "symbol_cipher: Zeta symbols - synthesizes beta and delta, shifts by 3"

/-- The raw signal string of `signal_source`. -/
def sigCore : String :=
  "core_transmission: Omega core - integrates all patterns, solve with combined clues"

/-- All raw signal strings placed in the world by `DecoderGame.init`. -/
def sevenSignals : List String :=
  [sigBasic, sigInterference, sigHarmonic, sigEcho, sigWave, sigSymbol, sigCore]

/-- `DecoderGame.init`: the initial `database.area` table. -/
def initAreas : AreaDB where
  landing_zone :=
    { artifacts := ["signal_scanner", "energy_crystal"]
      signals := [sigBasic]
      connections := ["volcanic_plains", "crystal_forest"]
      riskLevel := .low
      explored := true }
  volcanic_plains :=
    { artifacts := ["heat_resistant_probe", "lava_sample"]
      signals := [sigInterference]
      connections := ["landing_zone", "underground_caverns", "ancient_ruins"]
      riskLevel := .medium
      explored := false }
  crystal_forest :=
    { artifacts := ["vibration_analyzer", "crystal_shard"]
      signals := [sigHarmonic]
      connections := ["landing_zone", "hidden_lake", "ancient_ruins"]
      riskLevel := .low
      explored := false }
  underground_caverns :=
    { artifacts := ["echo_locator", "fossil_remnant"]
      signals := [sigEcho]
      connections := ["volcanic_plains", "signal_source"]
      riskLevel := .high
      explored := false }
  hidden_lake :=
    { artifacts := ["water_sampler", "aquatic_artifact"]
      signals := [sigWave]
      connections := ["crystal_forest", "signal_source"]
      riskLevel := .medium
      explored := false }
  ancient_ruins :=
    { artifacts := ["symbol_decoder", "engraved_tablet"]
      signals := [sigSymbol]
      connections := ["volcanic_plains", "crystal_forest"]
      riskLevel := .medium
      explored := false }
  signal_source :=
    { artifacts := ["master_artifact"]
      signals := [sigCore]
      connections := ["underground_caverns", "hidden_lake"]
      riskLevel := .very_high
      explored := false }

/-- A freshly constructed (or re-`init`-ed) `DecoderGame`. -/
def decoderInit : DecoderGame where
  state := initState
  area := initAreas

/-! ## Alien Signal Decoder: the eight tools -/

/-- The insufficient-energy error message used verbatim by the move, collect,
analyze and decode tools. -/
def insufficientEnergy (required available : Int) : String :=
  "Insufficient energy. Required: " ++ toString required ++
    ", Available: " ++ toString available

/-- Error result produced by the `tools.ts` dispatch wrapper when `execute`
throws (here: a property access on an `undefined` database lookup). -/
def toolCrash {σ : Type} (s : σ) : ToolResult σ :=
  .failure "Tool error: TypeError" s

/-- `ExploreConnectionsTool.execute`: costs no energy, increments the step
counter, then reads `database.area[position].connections` (which throws on an
unknown position — after the increment). -/
def exploreConnections (g : DecoderGame) : ToolResult DecoderGame :=
  let g1 : DecoderGame := { g with state := { g.state with stepCount := g.state.stepCount + 1 } }
  match g1.area.get g1.state.position with
  | none => toolCrash g1
  | some _ => .success g1

/-- `MoveToAreaTool.execute`. -/
def moveToArea (g : DecoderGame) (area : String) : ToolResult DecoderGame :=
  match g.area.get area with
  | none => .failure "Unknown area" g
  | some targetArea =>
    match g.area.get g.state.position with
    | none => toolCrash g
    | some currentArea =>
      if !(currentArea.connections.contains area) then
        .failure "Not connected to current position" g
      else
        let energyCost := riskCost targetArea.riskLevel
        if g.state.energy < energyCost then
          .failure (insufficientEnergy energyCost g.state.energy) g
        else
          let s1 : GameState := { g.state with
            energy := g.state.energy - energyCost
            stepCount := g.state.stepCount + 1
            position := area }
          if !targetArea.explored then
            .success
              { state := { s1 with
                  exploredAreas := s1.exploredAreas ++ [area]
                  score := s1.score + energyCost * 10 }
                area := g.area.set area { targetArea with explored := true } }
          else
            .success { g with state := s1 }

/-- `CollectArtifactTool.execute`.  The energy check precedes the area lookup;
on success the artifact is appended to the inventory before its database entry
is read (an unknown artifact id would throw at that point, after the energy
and step mutations), and finally it is spliced out of the area's list. -/
def collectArtifact (g : DecoderGame) (artifact : String) : ToolResult DecoderGame :=
  let energyCost : Int := 1
  if g.state.energy < energyCost then
    .failure (insufficientEnergy energyCost g.state.energy) g
  else
    match g.area.get g.state.position with
    | none => toolCrash g
    | some currentArea =>
      if !(currentArea.artifacts.contains artifact) then
        .failure "Artifact not available here" g
      else if g.state.artifacts.contains artifact then
        .failure "Already collected" g
      else
        let s1 : GameState := { g.state with
          energy := g.state.energy - energyCost
          stepCount := g.state.stepCount + 1
          artifacts := g.state.artifacts ++ [artifact] }
        match artifactDB artifact with
        | none => toolCrash { g with state := s1 }
        | some artifactData =>
          .success
            { state := { s1 with score := s1.score + artifactData.value }
              area := g.area.set g.state.position
                { currentArea with artifacts := currentArea.artifacts.erase artifact } }

/-- The clue-matching predicate shared by `AnalyzeClueTool` and
`DecodeSignalTool`: short-name equality after `split(':')[0].trim()`, or
exact equality with the full raw string. -/
def clueMatches (stored input : String) : Bool :=
  sName stored == sName input || stored == input

/-- `AnalyzeClueTool.execute`'s harmonic-area test:
`currentArea.signals.some(s => s.includes('harmonic') || s.includes('Gamma'))`. -/
def isHarmonic (a : AreaInfo) : Bool :=
  a.signals.any fun s => strIncludes s "harmonic" || strIncludes s "Gamma"

/-- The analyze energy cost: 1, or 0 while `vibration_analyzer` is in
inventory and the current area is harmonic. -/
def analyzeCostOf (g : DecoderGame) (cur : AreaInfo) : Int :=
  if g.state.artifacts.contains "vibration_analyzer" && isHarmonic cur then 0 else 1

/-- `AnalyzeClueTool.execute`. -/
def analyzeClue (g : DecoderGame) (signal : String) : ToolResult DecoderGame :=
  match g.area.get g.state.position with
  | none => toolCrash g
  | some currentArea =>
    let energyCost : Int := analyzeCostOf g currentArea
    if g.state.energy < energyCost then
      .failure (insufficientEnergy energyCost g.state.energy) g
    else
      match currentArea.signals.find? (fun s => clueMatches s signal) with
      | none =>
        .failure ("Signal not available here. Available signals: " ++
          String.intercalate ", " (currentArea.signals.map fun s => ⟨takeUntil ':' s.data⟩)) g
      | some matchingSignal =>
        if g.state.gatheredClues.contains matchingSignal then
          .failure "Already analyzed" g
        else
          .success { g with state := { g.state with
            energy := g.state.energy - energyCost
            stepCount := g.state.stepCount + 1
            gatheredClues := g.state.gatheredClues ++ [matchingSignal]
            score := g.state.score + 30 } }

/-- `DecodeSignalTool.execute`'s `findClue`: resolve an input name against the
gathered clues. -/
def findClue (g : DecoderGame) (input : String) : Option String :=
  g.state.gatheredClues.find? fun clue => clueMatches clue input

/-- The decode energy cost: 2, or 1 while `signal_scanner` is in inventory. -/
def decodeCost (g : DecoderGame) : Int :=
  if g.state.artifacts.contains "signal_scanner" then 1 else 2

/-- `DecodeSignalTool.execute`'s recipe lookup:
`database.signal[comboKey1] || database.signal[comboKey2]`. -/
def recipeFor (clue1 clue2 : String) : Option Recipe :=
  (signalDB (sName clue1 ++ "+" ++ sName clue2)).orElse
    fun _ => signalDB (sName clue2 ++ "+" ++ sName clue1)

/-- The gathered-clues listing used in two of the decode error messages. -/
def gatheredNames (g : DecoderGame) : String :=
  String.intercalate ", " (g.state.gatheredClues.map fun c => ⟨takeUntil ':' c.data⟩)

/-- `DecodeSignalTool.execute`. -/
def decodeSignal (g : DecoderGame) (signal1 signal2 : String) : ToolResult DecoderGame :=
  let energyCost := decodeCost g
  if g.state.energy < energyCost then
    .failure (insufficientEnergy energyCost g.state.energy) g
  else
    match findClue g signal1, findClue g signal2 with
    | some clue1, some clue2 =>
      match recipeFor clue1 clue2 with
      | none =>
        .failure ("Incompatible signals. Try different combinations from: " ++
          gatheredNames g) g
      | some recipe =>
        let decodedKey := clue1 ++ "+" ++ clue2
        let reverseKey := clue2 ++ "+" ++ clue1
        if g.state.decodedSignals.contains decodedKey ||
            g.state.decodedSignals.contains reverseKey then
          .failure "Already decoded this combination" g
        else
          .success { g with state := { g.state with
            energy := g.state.energy - energyCost
            stepCount := g.state.stepCount + 1
            decodedSignals := g.state.decodedSignals ++ [decodedKey]
            score := g.state.score + recipe.value
            bonusesEarned := g.state.bonusesEarned ++ [recipe.bonus] } }
    | _, _ =>
      .failure ("Missing required clues. Gathered: " ++ gatheredNames g) g

/-- `PlanOptimalRouteTool.execute`: logs the planned moves, increments the
step counter, and echoes the moves back in the payload. -/
def planOptimalRoute (g : DecoderGame) (moves : List String) : ToolResult DecoderGame :=
  let _ := moves
  .success { g with state := { g.state with stepCount := g.state.stepCount + 1 } }

/-- `UseEnergyCrystalTool.execute`: requires `energy_crystal` in inventory,
consumes it (splice of its first index) and restores 5 energy. -/
def useEnergyCrystal (g : DecoderGame) : ToolResult DecoderGame :=
  if !(g.state.artifacts.contains "energy_crystal") then
    .failure "No energy crystal in inventory - collect it first" g
  else
    .success { g with state := { g.state with
      stepCount := g.state.stepCount + 1
      artifacts := g.state.artifacts.erase "energy_crystal"
      energy := g.state.energy + 5 } }

/-- `FinalizeDiscoveryTool.execute`.  The step counter is incremented before
the guards; `finalHypothesis` is echoed in the payload but never stored in the
state.  On success the `completed` flag is set and the flat 500-point omega
bonus is added to the running score (the energy and efficiency bonuses are
computed for the payload only). -/
def finalizeDiscovery (g : DecoderGame) (finalHypothesis : String) : ToolResult DecoderGame :=
  let _ := finalHypothesis
  let g1 : DecoderGame := { g with state := { g.state with stepCount := g.state.stepCount + 1 } }
  let isAtSource := g1.state.position == "signal_source"
  let hasMinimumDecodes := decide (3 ≤ g1.state.decodedSignals.length)
  if !isAtSource then
    .failure "Must be at signal_source to finalize discovery" g1
  else if !hasMinimumDecodes then
    .failure ("Need at least 3 decoded signals. Currently have: " ++
      toString g1.state.decodedSignals.length) g1
  else
    .success { g1 with state := { g1.state with
      completed := true
      score := g1.state.score + 500
      bonusesEarned := g1.state.bonusesEarned ++ ["omega_revelation"] } }

/-- `DecoderGame.getFinalScore`.  The efficiency ratio `score / stepCount` is
a real-number division in the source; its comparisons with the thresholds 100
and 50 are embedded by cross-multiplication, which agrees with the source's
double-precision arithmetic on every state the engine can hold. -/
def DecoderGame.getFinalScore (g : DecoderGame) : Int :=
  let energyBonus := g.state.energy * 10
  let efficiencyBonus : Int :=
    if 0 < g.state.stepCount then
      if 100 * (g.state.stepCount : Int) < g.state.score then 200
      else if 50 * (g.state.stepCount : Int) < g.state.score then 100
      else 0
    else 0
  let reflectionBonus : Int := g.state.hypotheses.length * 50
  g.state.score + energyBonus + efficiencyBonus + reflectionBonus

/-- `DecoderGame.isCompleted`. -/
def DecoderGame.isCompleted (g : DecoderGame) : Bool :=
  g.state.completed

/-! ## Alien Signal Decoder: action dispatch and reachability -/

/-- One request to any of the eight decoder tools, with its parameters. -/
inductive DecoderAction where
  | exploreConnections
  | moveToArea (area : String)
  | collectArtifact (artifact : String)
  | analyzeClue (signal : String)
  | decodeSignal (signal1 signal2 : String)
  | planOptimalRoute (moves : List String)
  | useEnergyCrystal
  | finalizeDiscovery (finalHypothesis : String)

/-- Dispatch a request to the matching tool's `execute`. -/
def runAction : DecoderAction → DecoderGame → ToolResult DecoderGame
  | .exploreConnections, g => exploreConnections g
  | .moveToArea a, g => moveToArea g a
  | .collectArtifact a, g => collectArtifact g a
  | .analyzeClue s, g => analyzeClue g s
  | .decodeSignal s1 s2, g => decodeSignal g s1 s2
  | .planOptimalRoute m, g => planOptimalRoute g m
  | .useEnergyCrystal, g => useEnergyCrystal g
  | .finalizeDiscovery h, g => finalizeDiscovery g h

/-- Run a sequence of requests, threading the state through success and
failure alike (the orchestrator applies requested actions sequentially). -/
def runList (l : List DecoderAction) (g : DecoderGame) : DecoderGame :=
  l.foldl (fun g a => (runAction a g).state) g

/-- The states of the decoder game reachable from a fresh `init` by tool
requests. -/
inductive Reachable : DecoderGame → Prop where
  | init : Reachable decoderInit
  | step {g : DecoderGame} (a : DecoderAction) : Reachable g → Reachable (runAction a g).state

/-! ## Travel Planning game: data model -/

/-- The mutable `GameState` interface of `TravelGame` (its database of cities
and routes is never written and is embedded as constants). -/
structure TravelState where
  currentCity : String
  budget : Int
  visitedCities : List String
  totalSpent : Int
  score : Int
  stepCount : Nat
  completed : Bool
deriving DecidableEq

/-- `CityInfo` of the travel game's city database. -/
structure CityInfo where
  name : String
  region : String
  value : Int
deriving DecidableEq

/-- The immutable `database.cities` record of `TravelGame.init`
(descriptions omitted: payload only). -/
def citiesDB : String → Option CityInfo
  | "newyork" => some ⟨"New York", "North America", 50⟩
  | "paris" => some ⟨"Paris", "Europe", 150⟩
  | "tokyo" => some ⟨"Tokyo", "Asia", 200⟩
  | "sydney" => some ⟨"Sydney", "Australia", 120⟩
  | "rio" => some ⟨"Rio de Janeiro", "South America", 130⟩
  | "capetown" => some ⟨"Cape Town", "Africa", 110⟩
  | _ => none

/-- `TransportInfo` of the travel game's route database
(descriptions omitted: payload only). -/
structure TransportInfo where
  cost : Int
  time : Nat
deriving DecidableEq

/-- The immutable `database.routes` record of `TravelGame.init`. -/
def routesDB : String → Option TransportInfo
  | "newyork-paris" => some ⟨800, 1⟩
  | "newyork-tokyo" => some ⟨1200, 2⟩
  | "newyork-rio" => some ⟨900, 1⟩
  | "paris-tokyo" => some ⟨1000, 2⟩
  | "paris-sydney" => some ⟨1100, 2⟩
  | "paris-capetown" => some ⟨850, 1⟩
  | "tokyo-sydney" => some ⟨600, 1⟩
  | "tokyo-capetown" => some ⟨950, 2⟩
  | "sydney-capetown" => some ⟨700, 1⟩
  | "rio-capetown" => some ⟨750, 1⟩
  | "rio-sydney" => some ⟨1050, 2⟩
  | "paris-capetown_train" => some ⟨400, 3⟩
  | "newyork-rio_bus" => some ⟨150, 4⟩
  | "tokyo-sydney_bus" => some ⟨200, 5⟩
  | _ => none

/-- `MAX_STEPS` of the travel game. -/
def travelMaxSteps : Nat := 8

/-- The required-city list shared by `getFinalScore`, `isCompleted` and
`PlanRouteTool`. -/
def requiredCities : List String :=
  ["paris", "tokyo", "sydney", "rio", "capetown"]

/-- `TravelGame.init`: the initial travel state. -/
def travelInit : TravelState where
  currentCity := "newyork"
  budget := 2000
  visitedCities := ["newyork"]
  totalSpent := 0
  score := 0
  stepCount := 0
  completed := false

/-! ## Travel Planning game: the three tools -/

/-- `CheckRoutesTool.execute`: a free action; it only reads state.  Its
payload dereferences `cities[currentCity].name` and the names of all visited
cities, which throws on unknown ids (caught by the dispatch wrapper). -/
def checkRoutes (s : TravelState) : ToolResult TravelState :=
  match citiesDB s.currentCity with
  | none => toolCrash s
  | some _ =>
    if s.visitedCities.all (fun c => (citiesDB c).isSome) then .success s
    else toolCrash s

/-- `TravelTool.execute`. -/
def travel (s : TravelState) (routeKey : String) : ToolResult TravelState :=
  match routesDB routeKey with
  | none => .failure ("Route \"" ++ routeKey ++ "\" not available") s
  | some route =>
    if !(strStartsWith routeKey (s.currentCity ++ "-")) then
      .failure ("Route \"" ++ routeKey ++ "\" doesn't start from " ++ s.currentCity) s
    else
      let destination := destOf routeKey (s.currentCity ++ "-")
      if s.budget < route.cost then
        .failure ("Insufficient budget. Required: $" ++ toString route.cost ++
          ", Available: $" ++ toString s.budget) s
      else if travelMaxSteps < s.stepCount + route.time then
        .failure ("Not enough steps remaining. Required: " ++ toString route.time ++
          ", Available: " ++ toString ((travelMaxSteps : Int) - (s.stepCount : Int))) s
      else
        let s1 : TravelState := { s with
          budget := s.budget - route.cost
          totalSpent := s.totalSpent + route.cost
          stepCount := s.stepCount + route.time
          currentCity := destination }
        if !(s1.visitedCities.contains destination) then
          let s2 : TravelState := { s1 with visitedCities := s1.visitedCities ++ [destination] }
          match citiesDB destination with
          | none => toolCrash s2
          | some city => .success { s2 with score := s2.score + city.value }
        else
          match citiesDB destination with
          | none => toolCrash s1
          | some _ => .success s1

/-- `PlanRouteTool.execute`: a free action; it only reads state.  Its payload
dereferences `cities[currentCity].name`, which throws on an unknown id. -/
def planRoute (s : TravelState) : ToolResult TravelState :=
  match citiesDB s.currentCity with
  | none => toolCrash s
  | some _ => .success s

/-- Sum of `database.cities[city].value` over a visited list, `none` when a
lookup would throw: the reduce of `TravelGame.getFinalScore`. -/
def cityScoreOf : List String → Option Int
  | [] => some 0
  | c :: cs =>
    match citiesDB c with
    | none => none
    | some info => (cityScoreOf cs).map (info.value + ·)

/-- `TravelGame.getFinalScore`: visited-city values, plus
`Math.floor(budget / 100) * 5`, plus a flat 500 if every required city was
visited. -/
def TravelState.getFinalScore (s : TravelState) : Option Int :=
  (cityScoreOf s.visitedCities).map fun cs =>
    cs + s.budget.fdiv 100 * 5 +
      (if requiredCities.all (fun c => s.visitedCities.contains c) then 500 else 0)

/-- `TravelGame.isCompleted`. -/
def TravelState.isCompleted (s : TravelState) : Bool :=
  requiredCities.all fun c => s.visitedCities.contains c

/-! ## Travel Planning game: action dispatch and reachability -/

/-- One request to any of the three travel tools. -/
inductive TravelAction where
  | checkRoutes
  | travel (routeKey : String)
  | planRoute

/-- Dispatch a request to the matching tool's `execute`. -/
def runTravelAction : TravelAction → TravelState → ToolResult TravelState
  | .checkRoutes, s => checkRoutes s
  | .travel k, s => travel s k
  | .planRoute, s => planRoute s

/-- The states of the travel game reachable from a fresh `init`. -/
inductive TReachable : TravelState → Prop where
  | init : TReachable travelInit
  | step {s : TravelState} (a : TravelAction) : TReachable s → TReachable (runTravelAction a s).state

/-! ## Auxiliary definitions used by the statements and proofs -/

/-- A decoder state with the step counter overridden (used to state that no
decoder tool's outcome depends on the step counter). -/
def withStep (g : DecoderGame) (n : Nat) : DecoderGame :=
  { g with state := { g.state with stepCount := n } }

/-- A decoder state with the completed flag overridden (used to state that no
decoder tool reads the completed flag). -/
def withCompleted (g : DecoderGame) (b : Bool) : DecoderGame :=
  { g with state := { g.state with completed := b } }

/-- The four request kinds whose success adds an action bonus to the running
score: explore-by-moving, collect, analyze, decode. -/
def isScoringAction : DecoderAction → Bool
  | .moveToArea _ => true
  | .collectArtifact _ => true
  | .analyzeClue _ => true
  | .decodeSignal _ _ => true
  | _ => false

/-- The area signal lists as laid down by `init` (no tool ever writes a
`signals` field; only `explored` and `artifacts` are mutated). -/
def sigsFixed (db : AreaDB) : Prop :=
  db.landing_zone.signals = [sigBasic] ∧
  db.volcanic_plains.signals = [sigInterference] ∧
  db.crystal_forest.signals = [sigHarmonic] ∧
  db.underground_caverns.signals = [sigEcho] ∧
  db.hidden_lake.signals = [sigWave] ∧
  db.ancient_ruins.signals = [sigSymbol] ∧
  db.signal_source.signals = [sigCore]

/-- The inductive invariant of the decoder game: the energy pool is
non-negative, the hypotheses list stays empty, every gathered clue is one of
the seven raw world signals, every decoded key is the `+`-join of two world
signals whose recipe exists, and the world signal lists are the initial
ones. -/
def GoodState (g : DecoderGame) : Prop :=
  0 ≤ g.state.energy ∧
  g.state.hypotheses = [] ∧
  (∀ c ∈ g.state.gatheredClues, c ∈ sevenSignals) ∧
  (∀ k ∈ g.state.decodedSignals, ∃ c1 ∈ sevenSignals, ∃ c2 ∈ sevenSignals,
    k = c1 ++ "+" ++ c2 ∧ (recipeFor c1 c2).isSome = true) ∧
  sigsFixed g.area

/-- A play from `init`: analyze and decode three pairs, then walk to
`signal_source`.  Its final state `gSource` is reachable, sits at
`signal_source` with 3 decoded signals, 7 energy and running score 570 after
14 steps. -/
def sourceTrace : List DecoderAction :=
  [ .analyzeClue "basic_frequency"
  , .moveToArea "crystal_forest"
  , .analyzeClue "harmonic_sequence"
  , .decodeSignal "basic_frequency" "harmonic_sequence"
  , .moveToArea "hidden_lake"
  , .analyzeClue "wave_ripple"
  , .decodeSignal "harmonic_sequence" "wave_ripple"
  , .moveToArea "crystal_forest"
  , .moveToArea "ancient_ruins"
  , .analyzeClue "symbol_cipher"
  , .decodeSignal "wave_ripple" "symbol_cipher"
  , .moveToArea "crystal_forest"
  , .moveToArea "hidden_lake"
  , .moveToArea "signal_source" ]

/-- The reachable state at `signal_source` with 3 decoded signals. -/
def gSource : DecoderGame := runList sourceTrace decoderInit

/-- The reachable state after one successful decode (of
`basic_frequency` + `harmonic_sequence`), at `crystal_forest` with 25
energy. -/
def gDecoded : DecoderGame := runList (sourceTrace.take 4) decoderInit

/-- `gDecoded` after 24 bounce moves between `landing_zone` and
`crystal_forest`: same decoded pair, energy drained to 1. -/
def gLow : DecoderGame :=
  runList (List.flatten (List.replicate 12
    [DecoderAction.moveToArea "landing_zone", DecoderAction.moveToArea "crystal_forest"])) gDecoded

/-- `gLow` after one more move: energy exactly 0, at `landing_zone`. -/
def gZero : DecoderGame := (moveToArea gLow "landing_zone").state

/-- A reachable state holding `signal_scanner` with two gathered clues. -/
def gScanner : DecoderGame :=
  runList
    [ .collectArtifact "signal_scanner"
    , .analyzeClue "basic_frequency"
    , .moveToArea "crystal_forest"
    , .analyzeClue "harmonic_sequence" ] decoderInit

/-- A reachable state at harmonic `crystal_forest` holding
`vibration_analyzer`. -/
def gVibration : DecoderGame :=
  runList [ .moveToArea "crystal_forest", .collectArtifact "vibration_analyzer" ] decoderInit

/-- The reachable state just before the first decode of `sourceTrace`
(two clues gathered, no `signal_scanner` in inventory). -/
def gPlain : DecoderGame := runList (sourceTrace.take 3) decoderInit

/-- Does a tool result carry the step-ceiling rejection of
`TravelTool.execute` (`"Not enough steps remaining. ..."`)? -/
def isStepRejection {σ : Type} (r : ToolResult σ) : Bool :=
  match r.errorMsg with
  | some m => strStartsWith m "Not enough steps remaining"
  | none => false

/-- The fourteen keys of the travel route database. -/
def travelKeys : List String :=
  [ "newyork-paris", "newyork-tokyo", "newyork-rio", "paris-tokyo", "paris-sydney"
  , "paris-capetown", "tokyo-sydney", "tokyo-capetown", "sydney-capetown", "rio-capetown"
  , "rio-sydney", "paris-capetown_train", "newyork-rio_bus", "tokyo-sydney_bus" ]

/-- The projection of a travel state that the travel transition's guards and
resource updates depend on: current city, step count, budget. -/
def travelProj (s : TravelState) : String × Nat × Int :=
  (s.currentCity, s.stepCount, s.budget)

/-- All projections of travel states reachable from `init` (the route graph
is a DAG into `capetown`, so the trace tree is finite). -/
def reachProjList : List (String × Nat × Int) :=
  [ ("newyork", 0, 2000), ("paris", 1, 1200), ("tokyo", 2, 800), ("tokyo", 3, 200)
  , ("rio", 1, 1100), ("rio", 4, 1850), ("sydney", 3, 50), ("sydney", 3, 100)
  , ("sydney", 3, 200), ("sydney", 6, 800), ("sydney", 7, 600), ("sydney", 8, 0)
  , ("capetown", 2, 350), ("capetown", 4, 800), ("capetown", 5, 1100), ("capetown", 7, 100) ]

/-- One-step check used (via `decide`) to close `reachProjList` under the
travel transition and to show the step-ceiling branch never fires on it:
`false` exactly when, from projection `p`, route `k` passes the route and
budget guards but trips the step guard, or leads outside `reachProjList`. -/
def travelOkAt (p : String × Nat × Int) (k : String) : Bool :=
  match routesDB k with
  | none => true
  | some r =>
    if strStartsWith k (p.1 ++ "-") then
      if p.2.2 < r.cost then true
      else if travelMaxSteps < p.2.1 + r.time then false
      else decide ((destOf k (p.1 ++ "-"), p.2.1 + r.time, p.2.2 - r.cost) ∈ reachProjList)
    else true

/-- The inductive invariant of the travel game: the (city, steps, budget)
projection lies in `reachProjList` and every visited city is a known city. -/
def TravelInv (s : TravelState) : Prop :=
  travelProj s ∈ reachProjList ∧
  s.visitedCities.all (fun c => (citiesDB c).isSome) = true

/-! ## Basic lemmas -/

@[simp] lemma ToolResult.state_success {σ : Type} (s : σ) :
    (ToolResult.success s).state = s := rfl

@[simp] lemma ToolResult.state_failure {σ : Type} (m : String) (s : σ) :
    (ToolResult.failure m s).state = s := rfl

@[simp] lemma ToolResult.isSuccess_success {σ : Type} (s : σ) :
    (ToolResult.success s).isSuccess = true := rfl

@[simp] lemma ToolResult.isSuccess_failure {σ : Type} (m : String) (s : σ) :
    (ToolResult.failure m s).isSuccess = false := rfl

@[simp] lemma ToolResult.errorMsg_success {σ : Type} (s : σ) :
    (ToolResult.success s).errorMsg = none := rfl

@[simp] lemma ToolResult.errorMsg_failure {σ : Type} (m : String) (s : σ) :
    (ToolResult.failure m s).errorMsg = some m := rfl

@[simp] lemma runList_nil (g : DecoderGame) : runList [] g = g := rfl

@[simp] lemma runList_cons (a : DecoderAction) (l : List DecoderAction) (g : DecoderGame) :
    runList (a :: l) g = runList l (runAction a g).state := rfl

lemma reachable_runList (l : List DecoderAction) {g : DecoderGame} (h : Reachable g) :
    Reachable (runList l g) := by
  induction l generalizing g with
  | nil => simpa using h
  | cons a l ih => simpa using ih (Reachable.step a h)

/-! ## Per-action frame lemmas for the decoder game -/

lemma hypotheses_run (a : DecoderAction) (g : DecoderGame) :
    ((runAction a g).state).state.hypotheses = g.state.hypotheses := by
  cases a <;>
    simp only [runAction, exploreConnections, moveToArea, collectArtifact, analyzeClue,
      decodeSignal, planOptimalRoute, useEnergyCrystal, finalizeDiscovery] <;>
    (repeat' split) <;> rfl

lemma completed_run_mono (a : DecoderAction) (g : DecoderGame) (h : g.state.completed = true) :
    ((runAction a g).state).state.completed = true := by
  cases a <;>
    simp only [runAction, exploreConnections, moveToArea, collectArtifact, analyzeClue,
      decodeSignal, planOptimalRoute, useEnergyCrystal, finalizeDiscovery] <;>
    (repeat' split) <;> simp [toolCrash, h]

lemma decoded_run_mono (a : DecoderAction) (g : DecoderGame) (k : String)
    (h : k ∈ g.state.decodedSignals) :
    k ∈ ((runAction a g).state).state.decodedSignals := by
  cases a <;>
    simp only [runAction, exploreConnections, moveToArea, collectArtifact, analyzeClue,
      decodeSignal, planOptimalRoute, useEnergyCrystal, finalizeDiscovery] <;>
    (repeat' split) <;> simp_all [toolCrash, List.mem_append]

lemma decoded_runList_mono (l : List DecoderAction) (g : DecoderGame) (k : String)
    (h : k ∈ g.state.decodedSignals) :
    k ∈ (runList l g).state.decodedSignals := by
  induction l generalizing g with
  | nil => simpa using h
  | cons a l ih => simpa using ih (runAction a g).state (decoded_run_mono a g k h)

lemma isSuccess_withStep (a : DecoderAction) (g : DecoderGame) (n : Nat) :
    (runAction a (withStep g n)).isSuccess = (runAction a g).isSuccess := by
  cases a <;>
    simp only [runAction, exploreConnections, moveToArea, collectArtifact, analyzeClue,
      decodeSignal, planOptimalRoute, useEnergyCrystal, finalizeDiscovery, findClue,
      decodeCost, analyzeCostOf, gatheredNames, isHarmonic, toolCrash, withStep] <;>
    (repeat' split) <;> simp_all

lemma isSuccess_withCompleted (a : DecoderAction) (g : DecoderGame) (b : Bool) :
    (runAction a (withCompleted g b)).isSuccess = (runAction a g).isSuccess := by
  cases a <;>
    simp only [runAction, exploreConnections, moveToArea, collectArtifact, analyzeClue,
      decodeSignal, planOptimalRoute, useEnergyCrystal, finalizeDiscovery, findClue,
      decodeCost, analyzeCostOf, gatheredNames, isHarmonic, toolCrash, withCompleted] <;>
    (repeat' split) <;> simp_all

/-! ## The area database under updates -/

lemma AreaDB.get_cases {db : AreaDB} {n : String} {a : AreaInfo} (h : db.get n = some a) :
    a = db.landing_zone ∨ a = db.volcanic_plains ∨ a = db.crystal_forest ∨
    a = db.underground_caverns ∨ a = db.hidden_lake ∨ a = db.ancient_ruins ∨
    a = db.signal_source := by
  unfold AreaDB.get at h
  split at h <;> simp_all

lemma sigsFixed_set {db : AreaDB} {n : String} {a : AreaInfo} (a' : AreaInfo)
    (hdb : sigsFixed db) (hget : db.get n = some a) (hs : a'.signals = a.signals) :
    sigsFixed (db.set n a') := by
  unfold AreaDB.set
  split <;> simp_all [AreaDB.get, sigsFixed]

lemma signals_sub_seven {g : DecoderGame} (h5 : sigsFixed g.area) {n : String} {a : AreaInfo}
    (hget : g.area.get n = some a) : ∀ c ∈ a.signals, c ∈ sevenSignals := by
  obtain ⟨e1, e2, e3, e4, e5, e6, e7⟩ := h5
  intro c hc
  rcases AreaDB.get_cases hget with h | h | h | h | h | h | h <;> subst h <;>
    simp_all [sevenSignals]

/-! ## Preservation of the decoder invariant -/

lemma good_exploreConnections (g : DecoderGame) (h : GoodState g) :
    GoodState (exploreConnections g).state := by
  obtain ⟨h1, h2, h3, h4, h5⟩ := h
  unfold exploreConnections
  dsimp only
  split <;> exact ⟨h1, h2, h3, h4, h5⟩

lemma good_moveToArea (g : DecoderGame) (a : String) (h : GoodState g) :
    GoodState (moveToArea g a).state := by
  obtain ⟨h1, h2, h3, h4, h5⟩ := h
  unfold moveToArea
  dsimp only
  split
  next => exact ⟨h1, h2, h3, h4, h5⟩
  next target hget =>
    split
    next => exact ⟨h1, h2, h3, h4, h5⟩
    next cur hcur =>
      split
      next => exact ⟨h1, h2, h3, h4, h5⟩
      next hconn =>
        split
        next => exact ⟨h1, h2, h3, h4, h5⟩
        next henergy =>
          split
          next hexp =>
            exact ⟨by simp only [toolCrash, ToolResult.state]; omega, h2, h3, h4, sigsFixed_set _ h5 hget rfl⟩
          next hexp =>
            exact ⟨by simp only [toolCrash, ToolResult.state]; omega, h2, h3, h4, h5⟩

lemma good_collectArtifact (g : DecoderGame) (a : String) (h : GoodState g) :
    GoodState (collectArtifact g a).state := by
  obtain ⟨h1, h2, h3, h4, h5⟩ := h
  unfold collectArtifact
  dsimp only
  split
  next => exact ⟨h1, h2, h3, h4, h5⟩
  next henergy =>
    split
    next => exact ⟨h1, h2, h3, h4, h5⟩
    next cur hget =>
      split
      next => exact ⟨h1, h2, h3, h4, h5⟩
      next havail =>
        split
        next => exact ⟨h1, h2, h3, h4, h5⟩
        next hheld =>
          split
          next => exact ⟨by simp only [toolCrash, ToolResult.state]; omega, h2, h3, h4, h5⟩
          next adata hart =>
            exact ⟨by simp only [toolCrash, ToolResult.state]; omega, h2, h3, h4, sigsFixed_set _ h5 hget rfl⟩

lemma good_analyzeClue (g : DecoderGame) (sig : String) (h : GoodState g) :
    GoodState (analyzeClue g sig).state := by
  obtain ⟨h1, h2, h3, h4, h5⟩ := h
  unfold analyzeClue
  dsimp only
  split
  next => exact ⟨h1, h2, h3, h4, h5⟩
  next cur hget =>
    split
    next => exact ⟨h1, h2, h3, h4, h5⟩
    next henergy =>
      split
      next => exact ⟨h1, h2, h3, h4, h5⟩
      next msig hfind =>
        split
        next => exact ⟨h1, h2, h3, h4, h5⟩
        next hnew =>
          simp only [toolCrash, ToolResult.state]
          refine ⟨show 0 ≤ g.state.energy - analyzeCostOf g cur by omega, h2, ?_, h4, h5⟩
          intro c hc
          simp only [List.mem_append, List.mem_singleton] at hc
          rcases hc with hc | hc
          · exact h3 c hc
          · exact hc ▸ signals_sub_seven h5 hget msig (List.mem_of_find?_eq_some hfind)

lemma good_decodeSignal (g : DecoderGame) (s1 s2 : String) (h : GoodState g) :
    GoodState (decodeSignal g s1 s2).state := by
  obtain ⟨h1, h2, h3, h4, h5⟩ := h
  unfold decodeSignal
  dsimp only
  split
  next => exact ⟨h1, h2, h3, h4, h5⟩
  next henergy =>
    split
    next c1 c2 hf1 hf2 =>
      split
      next => exact ⟨h1, h2, h3, h4, h5⟩
      next recipe hrec =>
        split
        next => exact ⟨h1, h2, h3, h4, h5⟩
        next hnew =>
          simp only [toolCrash, ToolResult.state]
          refine ⟨show 0 ≤ g.state.energy - decodeCost g by omega, h2, h3, ?_, h5⟩
          intro k hk
          simp only [List.mem_append, List.mem_singleton] at hk
          rcases hk with hk | hk
          · exact h4 k hk
          · refine ⟨c1, h3 c1 (List.mem_of_find?_eq_some hf1),
              c2, h3 c2 (List.mem_of_find?_eq_some hf2), hk, ?_⟩
            simp [hrec]
    next => exact ⟨h1, h2, h3, h4, h5⟩

lemma good_planOptimalRoute (g : DecoderGame) (m : List String) (h : GoodState g) :
    GoodState (planOptimalRoute g m).state := by
  obtain ⟨h1, h2, h3, h4, h5⟩ := h
  exact ⟨h1, h2, h3, h4, h5⟩

lemma good_useEnergyCrystal (g : DecoderGame) (h : GoodState g) :
    GoodState (useEnergyCrystal g).state := by
  obtain ⟨h1, h2, h3, h4, h5⟩ := h
  unfold useEnergyCrystal
  dsimp only
  split
  next => exact ⟨h1, h2, h3, h4, h5⟩
  next => exact ⟨by simp only [toolCrash, ToolResult.state]; omega, h2, h3, h4, h5⟩

lemma good_finalizeDiscovery (g : DecoderGame) (hyp : String) (h : GoodState g) :
    GoodState (finalizeDiscovery g hyp).state := by
  obtain ⟨h1, h2, h3, h4, h5⟩ := h
  unfold finalizeDiscovery
  dsimp only
  split
  next => exact ⟨h1, h2, h3, h4, h5⟩
  next =>
    split
    next => exact ⟨h1, h2, h3, h4, h5⟩
    next => exact ⟨h1, h2, h3, h4, h5⟩

lemma good_run (a : DecoderAction) (g : DecoderGame) (h : GoodState g) :
    GoodState (runAction a g).state := by
  cases a with
  | exploreConnections => exact good_exploreConnections g h
  | moveToArea a => exact good_moveToArea g a h
  | collectArtifact a => exact good_collectArtifact g a h
  | analyzeClue s => exact good_analyzeClue g s h
  | decodeSignal s1 s2 => exact good_decodeSignal g s1 s2 h
  | planOptimalRoute m => exact good_planOptimalRoute g m h
  | useEnergyCrystal => exact good_useEnergyCrystal g h
  | finalizeDiscovery hy => exact good_finalizeDiscovery g hy h

lemma good_init : GoodState decoderInit := by
  refine ⟨by decide, rfl, by simp [decoderInit, initState], by simp [decoderInit, initState], ?_⟩
  exact ⟨rfl, rfl, rfl, rfl, rfl, rfl, rfl⟩

/-- Every reachable decoder state satisfies the inductive invariant. -/
lemma reachable_good {g : DecoderGame} (h : Reachable g) : GoodState g := by
  induction h with
  | init => exact good_init
  | step a _ ih => exact good_run a _ ih

/-! ## The decode combination resolver -/

set_option maxRecDepth 8000

lemma recipe_comm_seven : ∀ c1 ∈ sevenSignals, ∀ c2 ∈ sevenSignals,
    recipeFor c1 c2 = recipeFor c2 c1 := by decide

lemma seven_key_inj : ∀ c1 ∈ sevenSignals, ∀ c2 ∈ sevenSignals,
    ∀ d1 ∈ sevenSignals, ∀ d2 ∈ sevenSignals,
    c1 ++ "+" ++ c2 = d1 ++ "+" ++ d2 → c1 = d1 ∧ c2 = d2 := by decide

lemma findClue_mem_seven {g : DecoderGame} (hg : GoodState g) {s c : String}
    (hf : findClue g s = some c) : c ∈ sevenSignals :=
  hg.2.2.1 c (List.mem_of_find?_eq_some hf)

lemma decode_pair_blocked {g : DecoderGame} {s1 s2 c1 c2 : String}
    (hf1 : findClue g s1 = some c1) (hf2 : findClue g s2 = some c2)
    (hdec : (g.state.decodedSignals.contains (c1 ++ "+" ++ c2) ||
             g.state.decodedSignals.contains (c2 ++ "+" ++ c1)) = true) :
    (decodeSignal g s1 s2).isSuccess = false ∧ (decodeSignal g s1 s2).state = g := by
  unfold decodeSignal
  dsimp only
  rw [hf1, hf2]
  split
  next => simp
  next henergy =>
    dsimp only
    split
    next => simp
    next r hrec => rw [if_pos hdec]; simp

lemma decode_success_records {g : DecoderGame} {s1 s2 c1 c2 : String}
    (hsucc : (decodeSignal g s1 s2).isSuccess = true)
    (hf1 : findClue g s1 = some c1) (hf2 : findClue g s2 = some c2) :
    (c1 ++ "+" ++ c2) ∈ ((decodeSignal g s1 s2).state).state.decodedSignals := by
  unfold decodeSignal at hsucc ⊢
  dsimp only at hsucc ⊢
  rw [hf1, hf2] at hsucc ⊢
  split at hsucc
  next => simp at hsucc
  next henergy =>
    dsimp only at hsucc ⊢
    split at hsucc
    next => simp at hsucc
    next r hrec =>
      rw [if_neg henergy]
      by_cases hd : (g.state.decodedSignals.contains (c1 ++ "+" ++ c2) ||
          g.state.decodedSignals.contains (c2 ++ "+" ++ c1)) = true
      · rw [if_pos hd] at hsucc; simp at hsucc
      · rw [if_neg hd]; simp

lemma decode_already_message {g : DecoderGame} {s1 s2 c1 c2 : String}
    (hf1 : findClue g s1 = some c1) (hf2 : findClue g s2 = some c2)
    (hdec : (g.state.decodedSignals.contains (c1 ++ "+" ++ c2) ||
             g.state.decodedSignals.contains (c2 ++ "+" ++ c1)) = true)
    (henergy : ¬ g.state.energy < decodeCost g)
    (hrec : (recipeFor c1 c2).isSome = true) :
    (decodeSignal g s1 s2).errorMsg = some "Already decoded this combination" := by
  obtain ⟨r, hr⟩ := Option.isSome_iff_exists.mp hrec
  unfold decodeSignal
  dsimp only
  rw [hf1, hf2, if_neg henergy]
  dsimp only
  rw [hr]
  dsimp only
  rw [if_pos hdec]
  rfl

lemma decoded_pair_recipe {g : DecoderGame} (hg : GoodState g) {c1 c2 : String}
    (hc1 : c1 ∈ sevenSignals) (hc2 : c2 ∈ sevenSignals)
    (hdec : (g.state.decodedSignals.contains (c1 ++ "+" ++ c2) ||
             g.state.decodedSignals.contains (c2 ++ "+" ++ c1)) = true) :
    (recipeFor c1 c2).isSome = true := by
  obtain ⟨-, -, -, h4, -⟩ := hg
  rcases (Bool.or_eq_true _ _).mp hdec with hmem | hmem
  · have hmem2 : c1 ++ "+" ++ c2 ∈ g.state.decodedSignals := by simpa using hmem
    obtain ⟨d1, hd1, d2, hd2, hkey, hsome⟩ := h4 _ hmem2
    obtain ⟨e1, e2⟩ := seven_key_inj c1 hc1 c2 hc2 d1 hd1 d2 hd2 hkey
    rw [e1, e2]
    exact hsome
  · have hmem2 : c2 ++ "+" ++ c1 ∈ g.state.decodedSignals := by simpa using hmem
    obtain ⟨d1, hd1, d2, hd2, hkey, hsome⟩ := h4 _ hmem2
    obtain ⟨e1, e2⟩ := seven_key_inj c2 hc2 c1 hc1 d1 hd1 d2 hd2 hkey
    rw [recipe_comm_seven c1 hc1 c2 hc2, e1, e2]
    exact hsome

/-! ## Insufficient-resource rejections (claim C2 support) -/

lemma move_insufficient {g : DecoderGame} {area : String} {t : AreaInfo}
    (hget : g.area.get area = some t)
    (hen : g.state.energy < riskCost t.riskLevel) :
    (moveToArea g area).isSuccess = false ∧ (moveToArea g area).state = g := by
  unfold moveToArea
  dsimp only
  rw [hget]
  dsimp only
  (repeat' split) <;> simp_all [toolCrash]

lemma collect_insufficient {g : DecoderGame} {a : String}
    (hen : g.state.energy < 1) :
    (collectArtifact g a).isSuccess = false ∧ (collectArtifact g a).state = g := by
  unfold collectArtifact
  dsimp only
  rw [if_pos hen]
  simp

lemma analyze_insufficient {g : DecoderGame} {s : String} {cur : AreaInfo}
    (hget : g.area.get g.state.position = some cur)
    (hen : g.state.energy < analyzeCostOf g cur) :
    (analyzeClue g s).isSuccess = false ∧ (analyzeClue g s).state = g := by
  unfold analyzeClue
  dsimp only
  rw [hget]
  dsimp only
  rw [if_pos hen]
  simp

lemma decode_insufficient {g : DecoderGame} {s1 s2 : String}
    (hen : g.state.energy < decodeCost g) :
    (decodeSignal g s1 s2).isSuccess = false ∧ (decodeSignal g s1 s2).state = g := by
  unfold decodeSignal
  dsimp only
  rw [if_pos hen]
  simp

/-! ## Finalization (claims C3, C10 support) -/

lemma finalize_iff (g : DecoderGame) (hy : String) :
    (finalizeDiscovery g hy).isSuccess = true ↔
      g.state.position = "signal_source" ∧ 3 ≤ g.state.decodedSignals.length := by
  unfold finalizeDiscovery
  dsimp only
  split
  next hpos => simp_all
  next hpos =>
    split
    next hlen => simp_all
    next hlen => simp_all

lemma finalize_failure_state {g : DecoderGame} {hy : String} :
    (finalizeDiscovery g hy).isSuccess = false →
      (finalizeDiscovery g hy).state =
        { g with state := { g.state with stepCount := g.state.stepCount + 1 } } ∧
      (finalizeDiscovery g hy).errorMsg ≠ none := by
  unfold finalizeDiscovery
  dsimp only
  split
  next => intro h; exact ⟨rfl, by simp⟩
  next =>
    split
    next => intro h; exact ⟨rfl, by simp⟩
    next => intro h; simp at h

lemma finalize_success_state {g : DecoderGame} {hy : String} :
    (finalizeDiscovery g hy).isSuccess = true →
      (finalizeDiscovery g hy).state =
        { g with state := { g.state with
            stepCount := g.state.stepCount + 1
            completed := true
            score := g.state.score + 500
            bonusesEarned := g.state.bonusesEarned ++ ["omega_revelation"] } } := by
  unfold finalizeDiscovery
  dsimp only
  split
  next => intro h; simp at h
  next =>
    split
    next => intro h; simp at h
    next => intro h; rfl

/-! ## Movement effects (claim C4 support) -/

lemma AreaDB.get_set_same {db : AreaDB} {n : String} {a₀ : AreaInfo} (a : AreaInfo)
    (h : db.get n = some a₀) : (db.set n a).get n = some a := by
  unfold AreaDB.set
  split <;> simp_all [AreaDB.get]

lemma move_success_effects {g : DecoderGame} {area : String} {t : AreaInfo}
    (hget : g.area.get area = some t) :
    (moveToArea g area).isSuccess = true →
    ((moveToArea g area).state).state.energy = g.state.energy - riskCost t.riskLevel ∧
    ((moveToArea g area).state).state.stepCount = g.state.stepCount + 1 ∧
    ((moveToArea g area).state).state.position = area ∧
    (t.explored = false →
      ((moveToArea g area).state).state.score = g.state.score + riskCost t.riskLevel * 10 ∧
      ((moveToArea g area).state).area.get area = some { t with explored := true } ∧
      ((moveToArea g area).state).state.exploredAreas = g.state.exploredAreas ++ [area]) ∧
    (t.explored = true →
      ((moveToArea g area).state).state.score = g.state.score ∧
      ((moveToArea g area).state).area = g.area ∧
      ((moveToArea g area).state).state.exploredAreas = g.state.exploredAreas) := by
  unfold moveToArea
  dsimp only
  rw [hget]
  dsimp only
  split
  next => intro hs; simp [toolCrash] at hs
  next cur hcur =>
    split
    next => intro hs; simp at hs
    next hconn =>
      split
      next => intro hs; simp at hs
      next hen =>
        split
        next hexp =>
          intro hs
          refine ⟨rfl, rfl, rfl, fun _ => ⟨rfl, AreaDB.get_set_same _ hget, rfl⟩, fun hx => ?_⟩
          simp [hx] at hexp
        next hexp =>
          intro hs
          refine ⟨rfl, rfl, rfl, fun hx => ?_, fun _ => ⟨rfl, rfl, rfl⟩⟩
          simp [hx] at hexp

/-! ## Modified action costs (claim C7 support) -/

lemma decode_success_energy {g : DecoderGame} {s1 s2 : String}
    (h : (decodeSignal g s1 s2).isSuccess = true) :
    ((decodeSignal g s1 s2).state).state.energy = g.state.energy - decodeCost g := by
  unfold decodeSignal at h ⊢
  dsimp only at h ⊢
  split at h
  next => simp at h
  next hen =>
    split at h
    next c1 c2 hf1 hf2 =>
      split at h
      next => simp at h
      next r hrec =>
        split at h
        next => simp at h
        next hdup => rw [if_neg hen, if_neg hdup]; rfl
    next => simp at h

lemma analyze_success_energy {g : DecoderGame} {s : String} {cur : AreaInfo}
    (hget : g.area.get g.state.position = some cur)
    (h : (analyzeClue g s).isSuccess = true) :
    ((analyzeClue g s).state).state.energy = g.state.energy - analyzeCostOf g cur := by
  unfold analyzeClue at h ⊢
  dsimp only at h ⊢
  rw [hget] at h ⊢
  dsimp only at h ⊢
  split at h
  next => simp at h
  next hen =>
    split at h
    next => simp at h
    next msig hfind =>
      split at h
      next => simp at h
      next hnew => rw [if_neg hen, if_neg hnew]; rfl

/-! ## Repeated finalization (claim C10 support) and score frame (claim C5) -/

lemma finalize_twice {g : DecoderGame} {hy : String}
    (h : (finalizeDiscovery g hy).isSuccess = true) (hy2 : String) :
    (finalizeDiscovery ((finalizeDiscovery g hy).state) hy2).isSuccess = true ∧
    ((finalizeDiscovery ((finalizeDiscovery g hy).state) hy2).state).state.score =
      ((finalizeDiscovery g hy).state).state.score + 500 ∧
    ((finalizeDiscovery ((finalizeDiscovery g hy).state) hy2).state).state.stepCount =
      ((finalizeDiscovery g hy).state).state.stepCount + 1 := by
  obtain ⟨hpos, hlen⟩ := (finalize_iff g hy).mp h
  have h1 := finalize_success_state h
  have hsucc2 : (finalizeDiscovery ((finalizeDiscovery g hy).state) hy2).isSuccess = true := by
    refine (finalize_iff _ hy2).mpr ⟨?_, ?_⟩
    · rw [h1]; exact hpos
    · rw [h1]; exact hlen
  have h2 := finalize_success_state hsucc2
  refine ⟨hsucc2, ?_, ?_⟩
  · rw [h2]
  · rw [h2]

lemma score_frame (g : DecoderGame) (a : DecoderAction) :
    ((runAction a g).state).state.score = g.state.score ∨ isScoringAction a = true ∨
    (∃ hy, a = DecoderAction.finalizeDiscovery hy ∧ (runAction a g).isSuccess = true ∧
      ((runAction a g).state).state.score = g.state.score + 500) := by
  cases a with
  | moveToArea a => right; left; rfl
  | collectArtifact a => right; left; rfl
  | analyzeClue s => right; left; rfl
  | decodeSignal s1 s2 => right; left; rfl
  | planOptimalRoute m => left; rfl
  | exploreConnections =>
    left
    unfold runAction exploreConnections
    dsimp only
    split <;> rfl
  | useEnergyCrystal =>
    left
    unfold runAction useEnergyCrystal
    dsimp only
    split <;> rfl
  | finalizeDiscovery hy =>
    by_cases h : (finalizeDiscovery g hy).isSuccess = true
    · right; right
      refine ⟨hy, rfl, h, ?_⟩
      rw [show runAction (DecoderAction.finalizeDiscovery hy) g = finalizeDiscovery g hy from rfl,
        finalize_success_state h]
    · left
      have hf : (finalizeDiscovery g hy).isSuccess = false := by
        revert h; cases (finalizeDiscovery g hy).isSuccess <;> simp
      rw [show runAction (DecoderAction.finalizeDiscovery hy) g = finalizeDiscovery g hy from rfl,
        (finalize_failure_state hf).1]

/-! ## Final score shape (claim C9 support) -/

lemma getFinalScore_no_reflection {g : DecoderGame} (h : g.state.hypotheses = []) :
    g.getFinalScore = g.state.score + g.state.energy * 10 +
      (if 0 < g.state.stepCount then
        if 100 * (g.state.stepCount : Int) < g.state.score then 200
        else if 50 * (g.state.stepCount : Int) < g.state.score then 100 else 0
      else 0) := by
  unfold DecoderGame.getFinalScore
  rw [h]
  simp

/-! ## Travel game lemmas (claims C6, C8 support) -/

lemma checkRoutes_state (s : TravelState) : (checkRoutes s).state = s := by
  unfold checkRoutes
  (repeat' split) <;> rfl

lemma planRoute_state (s : TravelState) : (planRoute s).state = s := by
  unfold planRoute
  split <;> rfl

lemma routes_cases {k : String} {r : TransportInfo} (h : routesDB k = some r) :
    k ∈ travelKeys := by
  unfold routesDB at h
  split at h <;> simp_all [travelKeys]

lemma travel_cases (s : TravelState) (k : String) :
    (travel s k).state = s ∨
    ∃ r, routesDB k = some r ∧ strStartsWith k (s.currentCity ++ "-") = true ∧
      ¬(s.budget < r.cost) ∧ ¬(travelMaxSteps < s.stepCount + r.time) ∧
      travelProj (travel s k).state =
        (destOf k (s.currentCity ++ "-"), s.stepCount + r.time, s.budget - r.cost) ∧
      ((travel s k).state.visitedCities = s.visitedCities ∨
       (travel s k).state.visitedCities =
         s.visitedCities ++ [destOf k (s.currentCity ++ "-")]) := by
  unfold travel
  dsimp only
  split
  next => left; rfl
  next r hroute =>
    split
    next => left; rfl
    next hstart =>
      split
      next => left; rfl
      next hbud =>
        split
        next => left; rfl
        next hstep =>
          right
          refine ⟨r, hroute, by simpa using hstart, hbud, hstep, ?_, ?_⟩
          · (repeat' split) <;> rfl
          · (repeat' split) <;> first | exact Or.inl rfl | exact Or.inr rfl

lemma toolCrash_noStepRej {σ : Type} (s : σ) : isStepRejection (toolCrash s) = false := rfl

lemma travel_stepRej (s : TravelState) (k : String) :
    isStepRejection (travel s k) = true →
    ∃ r, routesDB k = some r ∧ strStartsWith k (s.currentCity ++ "-") = true ∧
      ¬(s.budget < r.cost) ∧ travelMaxSteps < s.stepCount + r.time := by
  unfold travel
  dsimp only
  split
  next =>
    intro h
    exact absurd h (by
      simp [isStepRejection, strStartsWith, String.data_append, List.isPrefixOf])
  next r hroute =>
    split
    next =>
      intro h
      exact absurd h (by
        simp [isStepRejection, strStartsWith, String.data_append, List.isPrefixOf])
    next hstart =>
      split
      next =>
        intro h
        exact absurd h (by
          simp [isStepRejection, strStartsWith, String.data_append, List.isPrefixOf])
      next hbud =>
        split
        next hstep => intro h; exact ⟨r, hroute, by simpa using hstart, hbud, hstep⟩
        next hstep =>
          intro h
          revert h
          (repeat' split) <;> intro hx <;>
            first
              | exact absurd hx (by rw [toolCrash_noStepRej]; simp)
              | exact absurd hx (by simp [isStepRejection])

lemma travelOk_all : ∀ p ∈ reachProjList, ∀ k ∈ travelKeys, travelOkAt p k = true := by
  decide

lemma dests_known : ∀ p ∈ reachProjList, ∀ k ∈ travelKeys,
    strStartsWith k (p.1 ++ "-") = true →
    (citiesDB (destOf k (p.1 ++ "-"))).isSome = true := by
  decide

lemma inv_travel {s : TravelState} (k : String) (h : TravelInv s) :
    TravelInv (travel s k).state := by
  obtain ⟨hp, hv⟩ := h
  rcases travel_cases s k with heq | ⟨r, hroute, hstart, hbud, hstep, hproj, hvis⟩
  · rw [heq]; exact ⟨hp, hv⟩
  · have hk := routes_cases hroute
    have hok := travelOk_all _ hp _ hk
    unfold travelOkAt at hok
    rw [hroute] at hok
    dsimp only [travelProj] at hok
    rw [if_pos hstart, if_neg hbud, if_neg hstep] at hok
    constructor
    · rw [show travelProj (travel s k).state =
        (destOf k (s.currentCity ++ "-"), s.stepCount + r.time, s.budget - r.cost) from hproj]
      exact of_decide_eq_true hok
    · have hdest := dests_known _ hp _ hk hstart
      rcases hvis with hvis | hvis
      · rw [hvis]; exact hv
      · rw [hvis]
        simp only [List.all_append, Bool.and_eq_true]
        exact ⟨hv, by simpa using hdest⟩

lemma inv_runTravel (a : TravelAction) {s : TravelState} (h : TravelInv s) :
    TravelInv (runTravelAction a s).state := by
  cases a with
  | checkRoutes => rw [show (runTravelAction TravelAction.checkRoutes s).state = s from
      checkRoutes_state s]; exact h
  | travel k => exact inv_travel k h
  | planRoute => rw [show (runTravelAction TravelAction.planRoute s).state = s from
      planRoute_state s]; exact h

lemma treachable_inv {s : TravelState} (h : TReachable s) : TravelInv s := by
  induction h with
  | init => exact ⟨by decide, by decide⟩
  | step a _ ih => exact inv_runTravel a ih

lemma no_step_rejection {s : TravelState} (h : TravelInv s) (k : String) :
    isStepRejection (travel s k) = false := by
  cases hsr : isStepRejection (travel s k) with
  | false => rfl
  | true =>
    exfalso
    obtain ⟨r, hroute, hstart, hbud, hstep⟩ := travel_stepRej s k hsr
    have hk := routes_cases hroute
    have hok := travelOk_all _ h.1 _ hk
    unfold travelOkAt at hok
    rw [hroute] at hok
    dsimp only [travelProj] at hok
    rw [if_pos hstart, if_neg hbud, if_pos hstep] at hok
    exact Bool.false_ne_true hok

lemma checkRoutes_noStepRej (s : TravelState) : isStepRejection (checkRoutes s) = false := by
  unfold checkRoutes
  (repeat' split) <;> rfl

lemma planRoute_noStepRej (s : TravelState) : isStepRejection (planRoute s) = false := by
  unfold planRoute
  split <;> rfl

lemma cityScoreOf_eq : ∀ l : List String, (∀ c ∈ l, (citiesDB c).isSome = true) →
    cityScoreOf l = some ((l.map (fun c => (citiesDB c).elim 0 CityInfo.value)).sum) := by
  intro l
  induction l with
  | nil => intro _; rfl
  | cons c cs ih =>
    intro h
    have hc := h c (by simp)
    obtain ⟨i, hi⟩ := Option.isSome_iff_exists.mp hc
    unfold cityScoreOf
    rw [hi, ih (fun x hx => h x (by simp [hx]))]
    simp [hi]

/-! ## Claim theorems -/

/-- C1 (amended): in every reachable decoder state in which both supplied
clue names resolve to already-gathered clues, recipe lookup is commutative
(decoding `(a,b)` and `(b,a)` resolve to the same recipe); a decode attempt
on a pair already recorded in `decodedSignals` (in either supplied order)
never succeeds and leaves the state unchanged; a successful decode records
the ordered pair key; recorded keys persist under every later action; and
whenever the energy pool covers the (possibly modified) decode cost, the
repeat attempt is rejected with the already-decoded error. -/
theorem C1_recipe_commutative_pair_decoded_once :
    (∀ g s1 s2 c1 c2, Reachable g → findClue g s1 = some c1 → findClue g s2 = some c2 →
      recipeFor c1 c2 = recipeFor c2 c1) ∧
    (∀ g s1 s2 c1 c2, findClue g s1 = some c1 → findClue g s2 = some c2 →
      (g.state.decodedSignals.contains (c1 ++ "+" ++ c2) ||
        g.state.decodedSignals.contains (c2 ++ "+" ++ c1)) = true →
      (decodeSignal g s1 s2).isSuccess = false ∧ (decodeSignal g s1 s2).state = g) ∧
    (∀ g s1 s2 c1 c2, (decodeSignal g s1 s2).isSuccess = true →
      findClue g s1 = some c1 → findClue g s2 = some c2 →
      (c1 ++ "+" ++ c2) ∈ ((decodeSignal g s1 s2).state).state.decodedSignals) ∧
    (∀ g (k : String) (a : DecoderAction), k ∈ g.state.decodedSignals →
      k ∈ ((runAction a g).state).state.decodedSignals) ∧
    (∀ g s1 s2 c1 c2, Reachable g → findClue g s1 = some c1 → findClue g s2 = some c2 →
      (g.state.decodedSignals.contains (c1 ++ "+" ++ c2) ||
        g.state.decodedSignals.contains (c2 ++ "+" ++ c1)) = true →
      ¬ g.state.energy < decodeCost g →
      (decodeSignal g s1 s2).errorMsg = some "Already decoded this combination") := by
  refine ⟨?_, ?_, ?_, ?_, ?_⟩
  · intro g s1 s2 c1 c2 hre hf1 hf2
    have hg := reachable_good hre
    exact recipe_comm_seven c1 (findClue_mem_seven hg hf1) c2 (findClue_mem_seven hg hf2)
  · intro g s1 s2 c1 c2 hf1 hf2 hdec
    exact decode_pair_blocked hf1 hf2 hdec
  · intro g s1 s2 c1 c2 hs hf1 hf2
    exact decode_success_records hs hf1 hf2
  · intro g k a hk
    exact decoded_run_mono a g k hk
  · intro g s1 s2 c1 c2 hre hf1 hf2 hdec hen
    have hg := reachable_good hre
    exact decode_already_message hf1 hf2 hdec hen
      (decoded_pair_recipe hg (findClue_mem_seven hg hf1) (findClue_mem_seven hg hf2) hdec)

/-- Witness for C1: after the decode of `basic_frequency+harmonic_sequence`
in `gDecoded`, the reversed attempt resolves the same recipe, fails with the
already-decoded error and changes nothing. -/
theorem C1_witness :
    recipeFor sigBasic sigHarmonic = recipeFor sigHarmonic sigBasic ∧
    (decodeSignal gDecoded "harmonic_sequence" "basic_frequency").isSuccess = false ∧
    (decodeSignal gDecoded "harmonic_sequence" "basic_frequency").state = gDecoded ∧
    (decodeSignal gDecoded "harmonic_sequence" "basic_frequency").errorMsg =
      some "Already decoded this combination" := by
  refine ⟨?_, ?_, ?_, ?_⟩
  · exact C1_recipe_commutative_pair_decoded_once.1 gDecoded "basic_frequency"
      "harmonic_sequence" sigBasic sigHarmonic (reachable_runList _ Reachable.init)
      (by decide) (by decide)
  · exact (C1_recipe_commutative_pair_decoded_once.2.1 gDecoded "harmonic_sequence"
      "basic_frequency" sigHarmonic sigBasic (by decide) (by decide) (by decide)).1
  · exact (C1_recipe_commutative_pair_decoded_once.2.1 gDecoded "harmonic_sequence"
      "basic_frequency" sigHarmonic sigBasic (by decide) (by decide) (by decide)).2
  · exact C1_recipe_commutative_pair_decoded_once.2.2.2.2 gDecoded "harmonic_sequence"
      "basic_frequency" sigHarmonic sigBasic (reachable_runList _ Reachable.init)
      (by decide) (by decide) (by decide) (by decide)

/-- Counterexample for C1 as stated: in the reachable state `gLow` the pair
`basic_frequency+harmonic_sequence` is already decoded and both names resolve
to gathered clues, yet the repeat attempt is rejected for insufficient
energy, not as already-decoded. -/
theorem C1_counterexample :
    Reachable gLow ∧
    findClue gLow "basic_frequency" = some sigBasic ∧
    findClue gLow "harmonic_sequence" = some sigHarmonic ∧
    (gLow.state.decodedSignals.contains (sigBasic ++ "+" ++ sigHarmonic) ||
      gLow.state.decodedSignals.contains (sigHarmonic ++ "+" ++ sigBasic)) = true ∧
    (decodeSignal gLow "basic_frequency" "harmonic_sequence").errorMsg =
      some "Insufficient energy. Required: 2, Available: 1" ∧
    (decodeSignal gLow "basic_frequency" "harmonic_sequence").errorMsg ≠
      some "Already decoded this combination" := by
  exact ⟨reachable_runList _ (reachable_runList _ Reachable.init),
    by decide, by decide, by decide, by decide, by decide⟩

/-- C2: each of the four resource-consuming decoder actions, when the energy
pool is smaller than its (possibly modified) cost, fails and leaves the
whole game state (including the area database) unchanged; consequently the
energy pool is non-negative in every reachable state. -/
theorem C2_insufficient_energy_never_negative :
    (∀ g area t, g.area.get area = some t → g.state.energy < riskCost t.riskLevel →
      (moveToArea g area).isSuccess = false ∧ (moveToArea g area).state = g) ∧
    (∀ g a, g.state.energy < 1 →
      (collectArtifact g a).isSuccess = false ∧ (collectArtifact g a).state = g) ∧
    (∀ g s cur, g.area.get g.state.position = some cur →
      g.state.energy < analyzeCostOf g cur →
      (analyzeClue g s).isSuccess = false ∧ (analyzeClue g s).state = g) ∧
    (∀ g s1 s2, g.state.energy < decodeCost g →
      (decodeSignal g s1 s2).isSuccess = false ∧ (decodeSignal g s1 s2).state = g) ∧
    (∀ g, Reachable g → 0 ≤ g.state.energy) := by
  refine ⟨?_, ?_, ?_, ?_, ?_⟩
  · intro g area t hget hen
    exact move_insufficient hget hen
  · intro g a hen
    exact collect_insufficient hen
  · intro g s cur hget hen
    exact analyze_insufficient hget hen
  · intro g s1 s2 hen
    exact decode_insufficient hen
  · intro g h
    exact (reachable_good h).1

/-- Witness for C2 at the reachable zero-energy state `gZero`: all four
actions are rejected without mutation, and the fresh state's pool is
non-negative. -/
theorem C2_witness :
    ((moveToArea gZero "crystal_forest").isSuccess = false ∧
      (moveToArea gZero "crystal_forest").state = gZero) ∧
    ((collectArtifact gZero "signal_scanner").isSuccess = false ∧
      (collectArtifact gZero "signal_scanner").state = gZero) ∧
    ((analyzeClue gZero "basic_frequency").isSuccess = false ∧
      (analyzeClue gZero "basic_frequency").state = gZero) ∧
    ((decodeSignal gZero "basic_frequency" "harmonic_sequence").isSuccess = false ∧
      (decodeSignal gZero "basic_frequency" "harmonic_sequence").state = gZero) ∧
    0 ≤ decoderInit.state.energy := by
  refine ⟨?_, ?_, ?_, ?_, ?_⟩
  · exact C2_insufficient_energy_never_negative.1 gZero "crystal_forest"
      gZero.area.crystal_forest rfl (by decide)
  · exact C2_insufficient_energy_never_negative.2.1 gZero "signal_scanner" (by decide)
  · exact C2_insufficient_energy_never_negative.2.2.1 gZero "basic_frequency"
      gZero.area.landing_zone (by decide) (by decide)
  · exact C2_insufficient_energy_never_negative.2.2.2.1 gZero "basic_frequency"
      "harmonic_sequence" (by decide)
  · exact C2_insufficient_energy_never_negative.2.2.2.2 decoderInit Reachable.init

/-- C3: finalize succeeds exactly at `signal_source` with at least 3 decoded
signals; on failure it reports an error, leaves the completed flag as it
was and still increments the step counter; on success it sets the flag; and
no action ever clears the flag. -/
theorem C3_finalize_guarded_terminal :
    (∀ g hy, (finalizeDiscovery g hy).isSuccess = true ↔
      g.state.position = "signal_source" ∧ 3 ≤ g.state.decodedSignals.length) ∧
    (∀ g hy, (finalizeDiscovery g hy).isSuccess = false →
      (finalizeDiscovery g hy).errorMsg ≠ none ∧
      ((finalizeDiscovery g hy).state).state.completed = g.state.completed ∧
      ((finalizeDiscovery g hy).state).state.stepCount = g.state.stepCount + 1) ∧
    (∀ g hy, (finalizeDiscovery g hy).isSuccess = true →
      ((finalizeDiscovery g hy).state).state.completed = true) ∧
    (∀ g (a : DecoderAction), g.state.completed = true →
      ((runAction a g).state).state.completed = true) := by
  refine ⟨finalize_iff, ?_, ?_, ?_⟩
  · intro g hy h
    obtain ⟨hst, herr⟩ := finalize_failure_state h
    exact ⟨herr, by rw [hst], by rw [hst]⟩
  · intro g hy h
    rw [finalize_success_state h]
  · intro g a h
    exact completed_run_mono a g h

/-- Witness for C3: finalize succeeds at `gSource` and sets the flag; it
fails from the fresh initial state with an error, an unchanged flag and an
incremented step counter; and the flag survives a subsequent move request. -/
theorem C3_witness :
    (finalizeDiscovery gSource "omega core").isSuccess = true ∧
    ((finalizeDiscovery gSource "omega core").state).state.completed = true ∧
    ((finalizeDiscovery decoderInit "early guess").isSuccess = false →
      (finalizeDiscovery decoderInit "early guess").errorMsg ≠ none ∧
      ((finalizeDiscovery decoderInit "early guess").state).state.completed =
        decoderInit.state.completed ∧
      ((finalizeDiscovery decoderInit "early guess").state).state.stepCount =
        decoderInit.state.stepCount + 1) ∧
    ((runAction (DecoderAction.moveToArea "hidden_lake")
      ((finalizeDiscovery gSource "omega core").state)).state).state.completed = true := by
  refine ⟨?_, ?_, ?_, ?_⟩
  · exact (C3_finalize_guarded_terminal.1 gSource "omega core").mpr ⟨by decide, by decide⟩
  · exact C3_finalize_guarded_terminal.2.2.1 gSource "omega core"
      ((C3_finalize_guarded_terminal.1 gSource "omega core").mpr ⟨by decide, by decide⟩)
  · exact C3_finalize_guarded_terminal.2.1 decoderInit "early guess"
  · exact C3_finalize_guarded_terminal.2.2.2 _ (DecoderAction.moveToArea "hidden_lake")
      (C3_finalize_guarded_terminal.2.2.1 gSource "omega core"
        ((C3_finalize_guarded_terminal.1 gSource "omega core").mpr ⟨by decide, by decide⟩))

/-- C4: a successful move deducts the risk-tier cost and increments the step
counter; entering an unexplored area additionally marks it explored and
awards `cost * 10` score, while re-entering an explored area awards nothing.
Scenario A: from the fresh state, moving to medium-risk `volcanic_plains`
leaves pool 28, score 20, and the area explored. -/
theorem C4_exploration_bonus_once :
    (∀ g area t, g.area.get area = some t → (moveToArea g area).isSuccess = true →
      ((moveToArea g area).state).state.energy = g.state.energy - riskCost t.riskLevel ∧
      ((moveToArea g area).state).state.stepCount = g.state.stepCount + 1 ∧
      (t.explored = false →
        ((moveToArea g area).state).state.score =
          g.state.score + riskCost t.riskLevel * 10 ∧
        ((moveToArea g area).state).area.get area = some { t with explored := true }) ∧
      (t.explored = true →
        ((moveToArea g area).state).state.score = g.state.score)) ∧
    ((moveToArea decoderInit "volcanic_plains").isSuccess = true ∧
      ((moveToArea decoderInit "volcanic_plains").state).state.energy = 28 ∧
      ((moveToArea decoderInit "volcanic_plains").state).state.score = 20 ∧
      (((moveToArea decoderInit "volcanic_plains").state).area.get "volcanic_plains").map
        AreaInfo.explored = some true) := by
  constructor
  · intro g area t hget hs
    obtain ⟨he, hst, hpos, hfresh, hold⟩ := move_success_effects hget hs
    exact ⟨he, hst, fun hx => ⟨(hfresh hx).1, (hfresh hx).2.1⟩, fun hx => (hold hx).1⟩
  · exact ⟨by decide, by decide, by decide, by decide⟩

/-- Witness for C4: the generic move contract applied to the concrete
Scenario A move. -/
theorem C4_witness :
    ((moveToArea decoderInit "volcanic_plains").state).state.energy =
      decoderInit.state.energy - riskCost initAreas.volcanic_plains.riskLevel ∧
    ((moveToArea decoderInit "volcanic_plains").state).state.stepCount =
      decoderInit.state.stepCount + 1 := by
  have h := C4_exploration_bonus_once.1 decoderInit "volcanic_plains"
    initAreas.volcanic_plains rfl (by decide)
  exact ⟨h.1, h.2.1⟩

/-- C5 (amended): the running score changes only through the four scoring
actions (move-into-unexplored, collect, analyze, decode) and through a
successful finalize, which adds the flat 500-point completion bonus to the
running score. -/
theorem C5_running_score_sources (g : DecoderGame) (a : DecoderAction) :
    ((runAction a g).state).state.score = g.state.score ∨ isScoringAction a = true ∨
    (∃ hy, a = DecoderAction.finalizeDiscovery hy ∧ (runAction a g).isSuccess = true ∧
      ((runAction a g).state).state.score = g.state.score + 500) :=
  score_frame g a

/-- Counterexample for C5 as stated: finalize is not one of the four scoring
actions, yet in the reachable state `gSource` it raises the running score
from 570 to 1070. -/
theorem C5_counterexample :
    Reachable gSource ∧
    isScoringAction (DecoderAction.finalizeDiscovery "omega core") = false ∧
    gSource.state.score = 570 ∧
    ((runAction (DecoderAction.finalizeDiscovery "omega core") gSource).state).state.score =
      1070 := by
  exact ⟨reachable_runList _ Reachable.init, rfl, by decide, by decide⟩

/-- C6: on every reachable travel state, no tool request is rejected by the
step-ceiling branch of `TravelTool.execute` (the budget guard always fires
first on the reachable projections), the two free travel tools never emit it,
and no decoder tool's outcome depends on the step counter at all. -/
theorem C6_no_step_ceiling_rejection :
    (∀ s, TReachable s → ∀ k, isStepRejection (travel s k) = false) ∧
    (∀ s, isStepRejection (checkRoutes s) = false) ∧
    (∀ s, isStepRejection (planRoute s) = false) ∧
    (∀ (a : DecoderAction) (g : DecoderGame) (n : Nat),
      (runAction a (withStep g n)).isSuccess = (runAction a g).isSuccess) := by
  refine ⟨?_, checkRoutes_noStepRej, planRoute_noStepRej, isSuccess_withStep⟩
  intro s hs k
  exact no_step_rejection (treachable_inv hs) k

/-- Witness for C6: the long bus route from the fresh travel state is not
step-rejected, and a decoder move's outcome is unchanged under an absurd
step counter. -/
theorem C6_witness :
    isStepRejection (travel travelInit "newyork-rio_bus") = false ∧
    (runAction (DecoderAction.moveToArea "crystal_forest") (withStep decoderInit 999)).isSuccess =
      (runAction (DecoderAction.moveToArea "crystal_forest") decoderInit).isSuccess := by
  exact ⟨C6_no_step_ceiling_rejection.1 travelInit TReachable.init "newyork-rio_bus",
    C6_no_step_ceiling_rejection.2.2.2 (DecoderAction.moveToArea "crystal_forest")
      decoderInit 999⟩

/-- C7: a successful decode deducts 1 energy while `signal_scanner` is held
and 2 otherwise; a successful analyze deducts 0 while `vibration_analyzer`
is held in a harmonic area and 1 otherwise; the modifier is re-evaluated
from the current inventory and position on every call (the statements
quantify over arbitrary current states). -/
theorem C7_modifier_costs :
    (∀ g s1 s2, g.state.artifacts.contains "signal_scanner" = true →
      (decodeSignal g s1 s2).isSuccess = true →
      ((decodeSignal g s1 s2).state).state.energy = g.state.energy - 1) ∧
    (∀ g s1 s2, g.state.artifacts.contains "signal_scanner" = false →
      (decodeSignal g s1 s2).isSuccess = true →
      ((decodeSignal g s1 s2).state).state.energy = g.state.energy - 2) ∧
    (∀ g s cur, g.area.get g.state.position = some cur →
      (g.state.artifacts.contains "vibration_analyzer" && isHarmonic cur) = true →
      (analyzeClue g s).isSuccess = true →
      ((analyzeClue g s).state).state.energy = g.state.energy) ∧
    (∀ g s cur, g.area.get g.state.position = some cur →
      (g.state.artifacts.contains "vibration_analyzer" && isHarmonic cur) = false →
      (analyzeClue g s).isSuccess = true →
      ((analyzeClue g s).state).state.energy = g.state.energy - 1) := by
  refine ⟨?_, ?_, ?_, ?_⟩
  · intro g s1 s2 hscan hs
    rw [decode_success_energy hs]
    unfold decodeCost
    rw [if_pos hscan]
  · intro g s1 s2 hscan hs
    rw [decode_success_energy hs]
    unfold decodeCost
    rw [if_neg (by rw [hscan]; simp)]
  · intro g s cur hget hmod hs
    rw [analyze_success_energy hget hs]
    unfold analyzeCostOf
    rw [if_pos hmod]
    simp
  · intro g s cur hget hmod hs
    rw [analyze_success_energy hget hs]
    unfold analyzeCostOf
    rw [if_neg (by rw [hmod]; simp)]

/-- Witness for C7: the scanner discount, the base decode cost, the zeroed
analyze cost and the base analyze cost, each at a concrete reachable
state. -/
theorem C7_witness :
    ((decodeSignal gScanner "basic_frequency" "harmonic_sequence").state).state.energy =
      gScanner.state.energy - 1 ∧
    ((decodeSignal gPlain "basic_frequency" "harmonic_sequence").state).state.energy =
      gPlain.state.energy - 2 ∧
    ((analyzeClue gVibration "harmonic_sequence").state).state.energy =
      gVibration.state.energy ∧
    ((analyzeClue decoderInit "basic_frequency").state).state.energy =
      decoderInit.state.energy - 1 := by
  refine ⟨?_, ?_, ?_, ?_⟩
  · exact C7_modifier_costs.1 gScanner "basic_frequency" "harmonic_sequence"
      (by decide) (by decide)
  · exact C7_modifier_costs.2.1 gPlain "basic_frequency" "harmonic_sequence"
      (by decide) (by decide)
  · exact C7_modifier_costs.2.2.1 gVibration "harmonic_sequence"
      gVibration.area.crystal_forest (by decide) (by decide) (by decide)
  · exact C7_modifier_costs.2.2.2 decoderInit "basic_frequency"
      decoderInit.area.landing_zone rfl (by decide) (by decide)

/-- C8: the travel game's final score is the sum of visited-city values plus
`floor(budget / 100) * 5` plus a flat 500 exactly when all five required
cities are visited; it does not depend on the step counter or on the running
score field (no efficiency and no reflection term). -/
theorem C8_travel_final_score :
    (∀ s : TravelState, (∀ c ∈ s.visitedCities, (citiesDB c).isSome = true) →
      s.getFinalScore = some
        ((s.visitedCities.map (fun c => (citiesDB c).elim 0 CityInfo.value)).sum +
          s.budget.fdiv 100 * 5 +
          (if requiredCities.all (fun c => s.visitedCities.contains c) = true
            then 500 else 0))) ∧
    (∀ (s : TravelState) (n : Nat) (x : Int),
      TravelState.getFinalScore { s with stepCount := n, score := x } = s.getFinalScore) := by
  constructor
  · intro s h
    unfold TravelState.getFinalScore
    rw [cityScoreOf_eq _ h]
    simp
  · intro s n x
    rfl

/-- Witness for C8: the fresh travel state scores 50 (New York) plus 100
(budget 2000) with no completion bonus. -/
theorem C8_witness :
    travelInit.getFinalScore = some
      ((travelInit.visitedCities.map (fun c => (citiesDB c).elim 0 CityInfo.value)).sum +
        travelInit.budget.fdiv 100 * 5 +
        (if requiredCities.all (fun c => travelInit.visitedCities.contains c) = true
          then 500 else 0)) ∧
    travelInit.getFinalScore = some 150 := by
  refine ⟨C8_travel_final_score.1 travelInit (by decide), ?_⟩
  rw [C8_travel_final_score.1 travelInit (by decide)]
  decide

/-- C9: the hypotheses list is empty in every reachable decoder state (no
tool ever appends to it; finalize takes a hypothesis parameter but never
stores it), so `getFinalScore` carries no reflection contribution. -/
theorem C9_hypotheses_empty_reflection_zero :
    (∀ g, Reachable g → g.state.hypotheses = []) ∧
    (∀ g, Reachable g → g.getFinalScore = g.state.score + g.state.energy * 10 +
      (if 0 < g.state.stepCount then
        if 100 * (g.state.stepCount : Int) < g.state.score then 200
        else if 50 * (g.state.stepCount : Int) < g.state.score then 100 else 0
      else 0)) := by
  have h1 : ∀ g, Reachable g → g.state.hypotheses = [] := fun g h => (reachable_good h).2.1
  exact ⟨h1, fun g h => getFinalScore_no_reflection (h1 g h)⟩

/-- Witness for C9 at the state reached by a full play ending in finalize:
the hypotheses list is still empty and the final score has no reflection
term. -/
theorem C9_witness :
    ((finalizeDiscovery gSource "omega core").state).state.hypotheses = [] ∧
    ((finalizeDiscovery gSource "omega core").state).getFinalScore =
      ((finalizeDiscovery gSource "omega core").state).state.score +
        ((finalizeDiscovery gSource "omega core").state).state.energy * 10 +
      (if 0 < ((finalizeDiscovery gSource "omega core").state).state.stepCount then
        if 100 * (((finalizeDiscovery gSource "omega core").state).state.stepCount : Int) <
            ((finalizeDiscovery gSource "omega core").state).state.score then 200
        else if 50 * (((finalizeDiscovery gSource "omega core").state).state.stepCount : Int) <
            ((finalizeDiscovery gSource "omega core").state).state.score then 100 else 0
      else 0) := by
  have hg : Reachable gSource := reachable_runList sourceTrace Reachable.init
  have hre : Reachable ((finalizeDiscovery gSource "omega core").state) :=
    Reachable.step (DecoderAction.finalizeDiscovery "omega core") hg
  exact ⟨C9_hypotheses_empty_reflection_zero.1 _ hre,
    C9_hypotheses_empty_reflection_zero.2 _ hre⟩

/-- C10: no decoder tool reads the completed flag (every outcome is
invariant under overriding it), and a second finalize after a successful
one succeeds again, adding another 500 points and another step. -/
theorem C10_completed_never_checked :
    (∀ (a : DecoderAction) (g : DecoderGame) (b : Bool),
      (runAction a (withCompleted g b)).isSuccess = (runAction a g).isSuccess) ∧
    (∀ g hy, (finalizeDiscovery g hy).isSuccess = true → ∀ hy2,
      (finalizeDiscovery ((finalizeDiscovery g hy).state) hy2).isSuccess = true ∧
      ((finalizeDiscovery ((finalizeDiscovery g hy).state) hy2).state).state.score =
        ((finalizeDiscovery g hy).state).state.score + 500 ∧
      ((finalizeDiscovery ((finalizeDiscovery g hy).state) hy2).state).state.stepCount =
        ((finalizeDiscovery g hy).state).state.stepCount + 1) :=
  ⟨isSuccess_withCompleted, fun _ _ h hy2 => finalize_twice h hy2⟩

/-- Witness for C10: a move's outcome is unchanged when the completed flag
is forced on, and the double finalize at `gSource` succeeds twice, adding
500 points and one step the second time. -/
theorem C10_witness :
    (runAction (DecoderAction.moveToArea "volcanic_plains")
        (withCompleted decoderInit true)).isSuccess =
      (runAction (DecoderAction.moveToArea "volcanic_plains") decoderInit).isSuccess ∧
    ((finalizeDiscovery ((finalizeDiscovery gSource "omega core").state) "again").isSuccess =
      true ∧
    ((finalizeDiscovery ((finalizeDiscovery gSource "omega core").state) "again").state).state.score =
      ((finalizeDiscovery gSource "omega core").state).state.score + 500 ∧
    ((finalizeDiscovery ((finalizeDiscovery gSource "omega core").state) "again").state).state.stepCount =
      ((finalizeDiscovery gSource "omega core").state).state.stepCount + 1) := by
  exact ⟨C10_completed_never_checked.1 (DecoderAction.moveToArea "volcanic_plains")
      decoderInit true,
    C10_completed_never_checked.2 gSource "omega core" (by decide) "again"⟩

end ThinkArena
